import Mathlib

/-!
Verification of the token-simulation engine (`python_modules/core`): a shallow
embedding of the entity data model and of the operations in `token.py`,
`token_runtime.py`, `spatial_grid_manager.py` and `respawn_manager.py`.
Float arithmetic is modelled over `ℝ` (square roots and trigonometry via
`Real.sqrt`, `Real.cos`, …); the respawn scheduler, which only compares
wall-clock timestamps, is modelled over `ℚ` so that its behaviour is
decidable.  Python `int(...)` truncation is modelled explicitly.
-/

/-- 2D vector with real components, modelling `pygame.Vector2`. -/
@[ext]
structure Vec2 where
  x : ℝ
  y : ℝ

noncomputable section

instance : Add Vec2 := ⟨fun a b => ⟨a.x + b.x, a.y + b.y⟩⟩

instance : Sub Vec2 := ⟨fun a b => ⟨a.x - b.x, a.y - b.y⟩⟩

instance : SMul ℝ Vec2 := ⟨fun c v => ⟨c * v.x, c * v.y⟩⟩

instance : Zero Vec2 := ⟨⟨0, 0⟩⟩

/-- Euclidean length, modelling `pygame.Vector2.length()`. -/
def Vec2.length (v : Vec2) : ℝ := Real.sqrt (v.x * v.x + v.y * v.y)

/-- Configuration values consumed by the engine (parsed settings), flattened
from the `settings.get_*` accessors used in `token.py` / `token_runtime.py`. -/
structure Settings where
  mouse_enabled : Bool
  mouse_max_distance : ℝ
  mouse_force_strength : ℝ
  mouse_falloff : String
  look_at_mouse : Bool
  rotation_offset_degrees : ℝ
  flocking_enabled : Bool
  flocking_radius : ℝ
  flocking_alignment : ℝ
  flocking_cohesion : ℝ
  flocking_separation : ℝ
  finds_home_enabled : Bool
  finds_home_delay_sec : ℝ
  finds_home_strength : ℝ
  collision_behavior : List String
  collision_type : String
  collision_bounds_scale : ℝ
  bounce_threshold : ℝ
  bounce_duration_ms : ℝ
  animation_bounce_scale : ℝ
  fade_in_duration_ms : ℝ
  respawn_collision_delay_sec : ℝ
  enable_wall_bounce : Bool
  bounce_factor : ℝ
  spawn_behavior : List String

/-- Entity state (`Token.__init__` fields that the simulation mutates).
`collision_partner` is modelled as the partner's identity (`tokenId`), since
the Python object reference is used only as an identity lookup.  The derived
`collision_bounds_rect` (an integer `pygame.Rect` used by no claim) is not
modelled; `collision_radius` is. -/
structure Token where
  position : Vec2
  home : Vec2
  velocity : Vec2
  original_size : Vec2
  current_size : Vec2
  bounce_scale : ℝ
  opacity : ℤ
  fade_timer : ℝ
  rotation : ℝ
  facing : String
  time_since_force : ℝ
  time_since_respawn : ℝ
  dead : Bool
  is_colliding : Bool
  collision_time : ℝ
  collision_partner : Option ℕ
  collision_radius : ℝ
  tokenId : ℕ

/-- `Token._check_circle_collision(self, other, with_response)`: returns the
(updated self, updated other, intensity).  Mirrors `token.py` lines 403-439:
no collision when `distance >= combined_radius`; otherwise intensity
`1 - distance / combined_radius`, and the symmetric separation response is
applied only `if distance > 0` (avoiding division by zero). -/
def Token.check_circle_collision (self other : Token) (with_response : Bool) :
    Token × Token × ℝ :=
  let dx := self.position.x - other.position.x
  let dy := self.position.y - other.position.y
  let distance := Real.sqrt (dx * dx + dy * dy)
  let self_radius := min self.current_size.x self.current_size.y / 2
  let other_radius := min other.current_size.x other.current_size.y / 2
  let combined_radius := self_radius + other_radius
  if distance ≥ combined_radius then (self, other, 0)
  else
    let intensity := 1 - distance / combined_radius
    if with_response then
      if distance > 0 then
        let nx := dx / distance
        let ny := dy / distance
        let overlap := combined_radius - distance
        ({ self with position :=
            ⟨self.position.x + nx * overlap * 0.5, self.position.y + ny * overlap * 0.5⟩ },
         { other with position :=
            ⟨other.position.x - nx * overlap * 0.5, other.position.y - ny * overlap * 0.5⟩ },
         intensity)
      else (self, other, intensity)
    else (self, other, intensity)

/-- `Token.__init__(position, size, facing)`: the fields the simulation uses,
with their initial values (velocity zero, full opacity, no collision). -/
def Token.init (pos size : Vec2) (facing0 : String) (tid : ℕ) : Token :=
  { position := pos
    home := pos
    velocity := ⟨0, 0⟩
    original_size := size
    current_size := size
    bounce_scale := 1
    opacity := 255
    fade_timer := 0
    rotation := 0
    facing := facing0
    time_since_force := 0
    time_since_respawn := 0
    dead := false
    is_colliding := false
    collision_time := 0
    collision_partner := none
    collision_radius := min size.x size.y / 2
    tokenId := tid }

/-- `math.atan2(y, x)` (quadrant-correct arctangent, `atan2(0,0) = 0`). -/
def atan2 (y x : ℝ) : ℝ :=
  if 0 < x then Real.arctan (y / x)
  else if x < 0 then
    (if 0 ≤ y then Real.arctan (y / x) + Real.pi else Real.arctan (y / x) - Real.pi)
  else if 0 < y then Real.pi / 2
  else if y < 0 then -(Real.pi / 2)
  else 0

/-- The facing-offset table `{"top": 90, "right": 0, "bottom": -90, "left": 180}`
with default `90` (`token.py` line 664). -/
def facingOffset (f : String) : ℝ :=
  if f = "top" then 90
  else if f = "right" then 0
  else if f = "bottom" then -90
  else if f = "left" then 180
  else 90

/-- The falloff dispatch of `Token.apply_mouse_force` (`token.py` lines 626-636):
the `factor` computed from the configured falloff name, with the final `else`
branch giving the plain `strength`. -/
def falloffFactor (s : Settings) (distance : ℝ) : ℝ :=
  if s.mouse_falloff = "linear" then
    s.mouse_force_strength * (1 - distance / s.mouse_max_distance)
  else if s.mouse_falloff = "inverse" then
    s.mouse_force_strength / (distance + 1)
  else if s.mouse_falloff = "quadratic" then
    s.mouse_force_strength * ((1 - distance / s.mouse_max_distance) ^ 2)
  else if s.mouse_falloff = "smoothstep" then
    let t := max 0 (min 1 (1 - distance / s.mouse_max_distance))
    s.mouse_force_strength * (t * t * (3 - 2 * t))
  else s.mouse_force_strength

/-- The falloff curves exactly as the spec words them (§4.2): linear
`(1 − d/max)`, inverse `1/(d+1)`, quadratic `(1 − d/max)²`, smoothstep
`3t² − 2t³` with `t = clamp(1 − d/max, 0, 1)`.  Used to compare the code's
`falloffFactor` against the spec. -/
def specFalloff (name : String) (d maxd : ℝ) : ℝ :=
  if name = "linear" then 1 - d / maxd
  else if name = "inverse" then 1 / (d + 1)
  else if name = "quadratic" then (1 - d / maxd) ^ 2
  else if name = "smoothstep" then
    let t := max 0 (min 1 (1 - d / maxd))
    3 * t ^ 2 - 2 * t ^ 3
  else 0

/-- `Token.apply_mouse_force(self, mouse_pos, mouse_velocity, settings)`
(`token.py` lines 605-667).  When the force is enabled and
`0 < distance < max_distance`, the direction is normalised in place and the
velocity gains `direction * factor * mouse_velocity.length()` (written here as
a scalar multiple of the unit vector), and `time_since_force` is reset; the
look-at-mouse rotation is applied independently of the force flag. -/
def Token.apply_mouse_force (t : Token) (mouse_pos mouse_velocity : Vec2)
    (s : Settings) : Token :=
  let center := t.position
  let force_mouse : Vec2 := ⟨mouse_pos.x, mouse_pos.y⟩
  let direction := center - force_mouse
  let distance := direction.length
  let t1 :=
    if s.mouse_enabled then
      if 0 < distance ∧ distance < s.mouse_max_distance then
        let factor := falloffFactor s distance
        let applied := (factor * mouse_velocity.length) • ((1 / distance) • direction)
        { t with velocity := t.velocity + applied, time_since_force := 0 }
      else t
    else t
  if s.look_at_mouse then
    let rot_mouse : Vec2 := ⟨mouse_pos.x, mouse_pos.y⟩
    let angle_deg := atan2 (rot_mouse.y - center.y) (rot_mouse.x - center.x) * 180 / Real.pi
    { t1 with rotation := angle_deg + facingOffset t1.facing + s.rotation_offset_degrees }
  else t1

/-- A pair of overlapping example tokens (same position) for concrete checks. -/
def exTokenA : Token := Token.init ⟨5, 5⟩ ⟨10, 10⟩ "top" 0

/-- Second token of the overlapping example pair. -/
def exTokenB : Token := Token.init ⟨5, 5⟩ ⟨10, 10⟩ "top" 1

/-- Example token at `(3, 4)` — distance 5 from the origin. -/
def exTokenC : Token := Token.init ⟨3, 4⟩ ⟨10, 10⟩ "top" 2

/-- Example pointer position at the origin. -/
def exMouse : Vec2 := ⟨0, 0⟩

/-- Example pointer velocity. -/
def exMouseVel : Vec2 := ⟨2, 0⟩

/-- An example configuration: mouse force enabled with linear falloff,
flocking and home-seeking disabled, wall bounce on, circle collisions with
the `bounce_pop` behavior, and the documented default animation values. -/
def exSettings : Settings :=
  { mouse_enabled := true
    mouse_max_distance := 200
    mouse_force_strength := 1
    mouse_falloff := "linear"
    look_at_mouse := false
    rotation_offset_degrees := 0
    flocking_enabled := false
    flocking_radius := 100
    flocking_alignment := 0.5
    flocking_cohesion := 0.5
    flocking_separation := 0.5
    finds_home_enabled := false
    finds_home_delay_sec := 2
    finds_home_strength := 0.5
    collision_behavior := ["bounce_pop"]
    collision_type := "circle"
    collision_bounds_scale := 1
    bounce_threshold := 0.3
    bounce_duration_ms := 150
    animation_bounce_scale := 1.2
    fade_in_duration_ms := 300
    respawn_collision_delay_sec := 0.5
    enable_wall_bounce := true
    bounce_factor := 0.8
    spawn_behavior := ["fade_in"] }

/-- `exSettings` with an unrecognised falloff name. -/
def exSettingsBogus : Settings := { exSettings with mouse_falloff := "constant" }

/-- An example canvas of 1000×1000. -/
def exCanvas : Vec2 := ⟨1000, 1000⟩

/-- An example token whose `time_since_respawn` equals the default collision
grace period exactly (0.5 s), overlapping `exTokenB`. -/
def exTokenD : Token :=
  { Token.init ⟨5, 5⟩ ⟨10, 10⟩ "top" 4 with time_since_respawn := 0.5 }

/-- An example token mid-bounce: colliding, with `collision_time = 0.075 s`. -/
def exTokenColliding : Token :=
  { Token.init ⟨100, 100⟩ ⟨10, 10⟩ "top" 3 with is_colliding := true, collision_time := 0.075 }

/-- An example token in mid-canvas with velocity `(1, 0)`. -/
def exTokenMoving : Token :=
  { Token.init ⟨100, 100⟩ ⟨10, 10⟩ "top" 5 with velocity := ⟨1, 0⟩ }

/-- `exSettings` with the mouse force also disabled: a bounded (wall-bounce),
pointer-disabled, flocking-disabled configuration. -/
def exSettingsFrozen : Settings := { exSettings with mouse_enabled := false }

/-- An example token at `(175, 0)` — cell `(3, 0)` for `cell_size = 50`. -/
def exTokenFar : Token := Token.init ⟨175, 0⟩ ⟨10, 10⟩ "top" 6

/-- A one-token list used to build an example spatial grid. -/
def exGridTokens : List (Option Token) := [some exTokenFar]

/-- Python `str.lower()`, character by character (kernel-evaluable model of
`String.toLower`). -/
def pyLower (s : String) : String := String.mk (s.data.map Char.toLower)

/-- Python `str.startswith(pre)` (kernel-evaluable model of
`String.startsWith`). -/
def pyStartsWith (s pre : String) : Bool := pre.data.isPrefixOf s.data

/-- The intensity computation of the `bounce_pop` branch of
`Token.check_collision` (`token.py` lines 793-834): `none` models the early
`return False` paths (no overlap, or `combined <= 0 or dist >= combined`),
`some i` the computed intensity. -/
def collisionIntensity (self other : Token) (s : Settings) : Option ℝ :=
  let bounds_scale := s.collision_bounds_scale
  if pyStartsWith (pyLower s.collision_type) "rect" then
    let half_w_a := 0.5 * self.current_size.x * bounds_scale
    let half_h_a := 0.5 * self.current_size.y * bounds_scale
    let half_w_b := 0.5 * other.current_size.x * bounds_scale
    let half_h_b := 0.5 * other.current_size.y * bounds_scale
    let left_a := self.position.x - half_w_a
    let right_a := self.position.x + half_w_a
    let top_a := self.position.y - half_h_a
    let bottom_a := self.position.y + half_h_a
    let left_b := other.position.x - half_w_b
    let right_b := other.position.x + half_w_b
    let top_b := other.position.y - half_h_b
    let bottom_b := other.position.y + half_h_b
    if right_a < left_b ∨ left_a > right_b ∨ bottom_a < top_b ∨ top_a > bottom_b then none
    else
      let overlap_x := min right_a right_b - max left_a left_b
      let overlap_y := min bottom_a bottom_b - max top_a top_b
      let overlap_area := max 0 overlap_x * max 0 overlap_y
      let max_area := max (1e-6 : ℝ)
        (min ((2 * half_w_a) * (2 * half_h_a)) ((2 * half_w_b) * (2 * half_h_b)))
      some (max 0 (min 1 (overlap_area / max_area)))
  else
    let dx := self.position.x - other.position.x
    let dy := self.position.y - other.position.y
    let dist := Real.sqrt (dx * dx + dy * dy)
    let r_a := 0.5 * min self.current_size.x self.current_size.y * bounds_scale
    let r_b := 0.5 * min other.current_size.x other.current_size.y * bounds_scale
    let combined := r_a + r_b
    if combined ≤ 0 ∨ dist ≥ combined then none
    else some (1 - dist / combined)

/-- `Token.check_collision(self, other, settings)` (`token.py` lines 760-856):
skip while `time_since_respawn < respawn_collision_delay_sec`; with the
`bounce_pop` behavior, fire when the computed intensity reaches
`bounce_threshold`, setting `is_colliding`, `collision_partner`,
`collision_time = 0` and `bounce_scale = 1.0`.  Only `self` is mutated. -/
def Token.check_collision (self other : Token) (s : Settings) : Token × Bool :=
  if self.time_since_respawn < s.respawn_collision_delay_sec then (self, false)
  else if "bounce_pop" ∈ s.collision_behavior then
    match collisionIntensity self other s with
    | none => (self, false)
    | some intensity =>
      if intensity ≥ s.bounce_threshold then
        ({ self with
            is_colliding := true
            collision_partner := some other.tokenId
            collision_time := 0
            bounce_scale := 1 }, true)
      else (self, false)
  else (self, false)

/-- `Token.apply_flocking(self, neighbors, settings)` (`token.py` lines
669-701): accumulate centroid, average velocity and separation over
neighbors at `0 < dist < radius` (self skipped, by identity), then add
`(com − pos)·cohesion + (avg_vel − vel)·alignment + sep·separation` to the
velocity when at least one neighbor counted. -/
def Token.apply_flocking (t : Token) (neighbors : List Token) (s : Settings) : Token :=
  if s.flocking_enabled then
    let radius := s.flocking_radius
    let acc := neighbors.foldl
      (fun (st : Vec2 × Vec2 × Vec2 × ℕ) other =>
        if other.tokenId = t.tokenId then st
        else
          let offset := other.position - t.position
          let dist := offset.length
          if 0 < dist ∧ dist < radius then
            (st.1 + other.position, st.2.1 + other.velocity,
             st.2.2.1 - ((1 - dist / radius) • ((1 / dist) • offset)), st.2.2.2 + 1)
          else st)
      (⟨0, 0⟩, ⟨0, 0⟩, ⟨0, 0⟩, 0)
    if 0 < acc.2.2.2 then
      let com := (1 / (acc.2.2.2 : ℝ)) • acc.1
      let avg_vel := (1 / (acc.2.2.2 : ℝ)) • acc.2.1
      let delta := (s.flocking_cohesion • (com - t.position)) +
        (s.flocking_alignment • (avg_vel - t.velocity)) +
        (s.flocking_separation • acc.2.2.1)
      { t with velocity := t.velocity + delta }
    else t
  else t

/-- `Token.apply_home_force(self, settings, dt)` (`token.py` lines 703-716):
after `time_since_force` exceeds the configured delay, add a unit vector
toward home scaled by `strength * dt`. -/
def Token.apply_home_force (t : Token) (s : Settings) (dt : ℝ) : Token :=
  if s.finds_home_enabled ∧ t.time_since_force > s.finds_home_delay_sec then
    let to_home := t.home - t.position
    if to_home.length > 0 then
      { t with velocity := t.velocity +
          ((s.finds_home_strength * dt) • ((1 / to_home.length) • to_home)) }
    else t
  else t

/-- The collision loop of `update_tokens` (`token_runtime.py` lines 111-115):
`check_collision` against each candidate in turn (skipping the token itself,
by identity), keeping the successively updated token. -/
def checkCollisionsRun (t : Token) (candidates : List Token) (s : Settings) : Token :=
  candidates.foldl
    (fun acc other => if other.tokenId = t.tokenId then acc
      else (acc.check_collision other s).1) t

/-- The bounce-animation phase of `Token.update` (`token.py` lines 964-988):
advance `collision_time`, reset the collision state once the duration is
reached, otherwise apply the triangular bounce-scale envelope. -/
def Token.updateBouncePhase (t0 : Token) (s : Settings) (dt : ℝ) : Token :=
  if t0.is_colliding then
    let ct := t0.collision_time + dt
    let bounce_duration := s.bounce_duration_ms / 1000
    if ct ≥ bounce_duration then
      { t0 with
        is_colliding := false
        collision_partner := none
        collision_time := 0
        bounce_scale := 1 }
    else
      let bounce_max := s.animation_bounce_scale
      let progress := ct / bounce_duration
      { t0 with
        collision_time := ct
        bounce_scale :=
          if progress < 0.5 then 1 + (bounce_max - 1) * (progress * 2)
          else bounce_max - (bounce_max - 1) * ((progress - 0.5) * 2) }
  else t0

/-- The integration phase of `Token.update` (`token.py` lines 990-993):
`position += velocity`, `velocity *= 0.9`, `time_since_force += dt`. -/
def Token.updateIntegrate (t1 : Token) (dt : ℝ) : Token :=
  { t1 with
    position := t1.position + t1.velocity
    velocity := (0.9 : ℝ) • t1.velocity
    time_since_force := t1.time_since_force + dt }

/-- The rotated-bounding-box phase of `Token.update` (`token.py` lines
996-1004): `current_size` grows by `|cos|`/`|sin|` of the rotation. -/
def Token.updateRotatedSize (t2 : Token) : Token :=
  if t2.rotation ≠ 0 then
    let angle_rad := t2.rotation * Real.pi / 180
    let cos_rot := |Real.cos angle_rad|
    let sin_rot := |Real.sin angle_rad|
    { t2 with current_size :=
        ⟨t2.original_size.x * cos_rot + t2.original_size.y * sin_rot,
         t2.original_size.x * sin_rot + t2.original_size.y * cos_rot⟩ }
  else { t2 with current_size := t2.original_size }

/-- The bounce-scale size phase of `Token.update` (`token.py` lines
1007-1015; the `size` int tuple, unused by the simulation, is omitted). -/
def Token.updateBounceSize (t3 : Token) : Token :=
  if t3.bounce_scale ≠ 1 then
    { t3 with current_size :=
        ⟨t3.current_size.x * t3.bounce_scale, t3.current_size.y * t3.bounce_scale⟩ }
  else t3

/-- The boundary phase of `Token.update` (`token.py` lines 1017-1053): with
wall bounce, clamp the position to the canvas edge and reflect the offending
velocity component scaled by `bounce_factor` (x axis first, then y on the
updated state); otherwise set `dead` exactly when the bounding box is
entirely outside the canvas. -/
def Token.updateBoundary (t4 : Token) (canvas_size : Vec2) (s : Settings) : Token :=
  if s.enable_wall_bounce then
    let half_width := t4.current_size.x / 2
    let half_height := t4.current_size.y / 2
    let tx : Token :=
      if t4.position.x - half_width < 0 then
        { t4 with
          position := ⟨half_width, t4.position.y⟩
          velocity := if t4.velocity.x < 0 then
            ⟨-t4.velocity.x * s.bounce_factor, t4.velocity.y⟩ else t4.velocity }
      else if t4.position.x + half_width > canvas_size.x then
        { t4 with
          position := ⟨canvas_size.x - half_width, t4.position.y⟩
          velocity := if t4.velocity.x > 0 then
            ⟨-t4.velocity.x * s.bounce_factor, t4.velocity.y⟩ else t4.velocity }
      else t4
    if tx.position.y - half_height < 0 then
      { tx with
        position := ⟨tx.position.x, half_height⟩
        velocity := if tx.velocity.y < 0 then
          ⟨tx.velocity.x, -tx.velocity.y * s.bounce_factor⟩ else tx.velocity }
    else if tx.position.y + half_height > canvas_size.y then
      { tx with
        position := ⟨tx.position.x, canvas_size.y - half_height⟩
        velocity := if tx.velocity.y > 0 then
          ⟨tx.velocity.x, -tx.velocity.y * s.bounce_factor⟩ else tx.velocity }
    else tx
  else
    let half_width := t4.current_size.x / 2
    let half_height := t4.current_size.y / 2
    { t4 with dead :=
        if t4.position.x + half_width < 0 ∨ t4.position.x - half_width > canvas_size.x ∨
           t4.position.y + half_height < 0 ∨ t4.position.y - half_height > canvas_size.y
        then true else false }

/-- The phases of `Token.update` before boundary handling: respawn timer,
bounce animation, integration with the fixed `velocity *= 0.9` damping,
rotated bounding-box size, bounce-scale size growth. -/
def Token.updatePreBoundary (t : Token) (s : Settings) (dt : ℝ) : Token :=
  let t0 : Token := { t with time_since_respawn := t.time_since_respawn + dt }
  (((t0.updateBouncePhase s dt).updateIntegrate dt).updateRotatedSize).updateBounceSize

/-- `Token.update(self, canvas_size, settings, dt)` (`token.py` lines
959-1065): the phases up to the boundary (`updatePreBoundary`), boundary
handling, and the derived `collision_radius`. -/
def Token.update (t : Token) (canvas_size : Vec2) (s : Settings) (dt : ℝ) : Token :=
  let t5 := (t.updatePreBoundary s dt).updateBoundary canvas_size s
  { t5 with collision_radius := min t5.current_size.x t5.current_size.y / 2 }

/-- The per-token body of `update_tokens` (`token_runtime.py` lines 75-118):
flocking over grid-supplied neighbors, mouse force, home force, the
collision loop over grid-supplied candidates, then `Token.update`. -/
def stepToken (t : Token) (nearby candidates : List Token)
    (mouse_pos mouse_velocity : Vec2) (s : Settings) (canvas_size : Vec2)
    (dt : ℝ) : Token :=
  let a := t.apply_flocking nearby s
  let b := a.apply_mouse_force mouse_pos mouse_velocity s
  let c := b.apply_home_force s dt
  let d := checkCollisionsRun c candidates s
  d.update canvas_size s dt

/-- `SpatialGrid._get_cell_coords` (`spatial_grid_manager.py` lines 19-22):
`(int(x // cell_size), int(y // cell_size))`, i.e. floors. -/
def cellCoords (cs : ℝ) (pos : Vec2) : ℤ × ℤ := (⌊pos.x / cs⌋, ⌊pos.y / cs⌋)

/-- `SpatialGrid.insert` (lines 34-40): `None` is skipped, otherwise the
token is appended to its cell's list.  The grid is modelled as the total
function from cell coordinates to cell contents (`defaultdict(list)`). -/
def SpatialGrid.insert (cs : ℝ) (g : ℤ × ℤ → List Token) (tok : Option Token) :
    ℤ × ℤ → List Token :=
  match tok with
  | none => g
  | some t => Function.update g (cellCoords cs t.position)
      (g (cellCoords cs t.position) ++ [t])

/-- `SpatialGrid.update(tokens)` (lines 42-46): clear, then insert each. -/
def SpatialGrid.update (cs : ℝ) (toks : List (Option Token)) : ℤ × ℤ → List Token :=
  toks.foldl (SpatialGrid.insert cs) (fun _ => [])

/-- The list `-c, …, c` of cell offsets —
`range(-cells_to_check, cells_to_check + 1)`. -/
def rangeOffsets (c : ℤ) : List ℤ :=
  (List.range (2 * c + 1).toNat).map (fun (i : ℕ) => -c + (i : ℤ))

/-- `SpatialGrid.get_nearby_tokens(position, radius)` (lines 48-72):
`cells_to_check = max(1, int(radius // cell_size) + 1)`, then the union of
the grid cells within that Chebyshev range of the position's cell (the
Python set is modelled as a list with membership semantics). -/
def SpatialGrid.get_nearby_tokens (cs : ℝ) (g : ℤ × ℤ → List Token)
    (pos : Vec2) (radius : ℝ) : List Token :=
  let center := cellCoords cs pos
  let cells_to_check : ℤ := max 1 (⌊radius / cs⌋ + 1)
  (rangeOffsets cells_to_check).flatMap (fun dx =>
    (rangeOffsets cells_to_check).flatMap (fun dy =>
      g (center.1 + dx, center.2 + dy)))

/-- Modelled from the spec (§4.1): the union of all entities in cells within
`ceil(radius / cell_size) + 1` rings of the point's cell — the set the spec
says `query_radius` returns.  Compared against the code's
`SpatialGrid.get_nearby_tokens`. -/
def specRingUnion (cs : ℝ) (g : ℤ × ℤ → List Token) (pos : Vec2) (radius : ℝ) :
    List Token :=
  let center := cellCoords cs pos
  let rings : ℤ := ⌈radius / cs⌉ + 1
  (rangeOffsets rings).flatMap (fun dx =>
    (rangeOffsets rings).flatMap (fun dy =>
      g (center.1 + dx, center.2 + dy)))

/-- Python `int(x)` truncation toward zero. -/
def pytrunc (x : ℝ) : ℤ := if 0 ≤ x then ⌊x⌋ else ⌈x⌉

/-- The per-token body of `update_token_fades` (`token_runtime.py` lines
533-554): skipped entirely under `instant_in`; otherwise a token with
`opacity < 255` accumulates `fade_timer += dt` and gets
`opacity = int(255 * min(1, fade_timer / fade_duration_sec))`. -/
def update_token_fade (t : Token) (s : Settings) (dt : ℝ) : Token :=
  if "instant_in" ∈ s.spawn_behavior then t
  else
    let fade_duration_sec := s.fade_in_duration_ms / 1000
    if t.opacity < 255 then
      let ft := t.fade_timer + dt
      let progress := min 1 (ft / fade_duration_sec)
      { t with fade_timer := ft, opacity := pytrunc (255 * progress) }
    else t

/-- `Token.reset` (`token.py` lines 64-89): the simulation-state fields it
resets for respawning (texture/image fields are not modelled). -/
def Token.reset (t : Token) : Token :=
  { t with
    velocity := ⟨0, 0⟩
    rotation := 0
    bounce_scale := 1
    opacity := 255
    fade_timer := 0
    dead := false
    is_colliding := false
    collision_time := 0
    collision_partner := none
    time_since_force := 0
    time_since_respawn := 0 }

/-- The new-token construction of `respawn_tokens` (`token_runtime.py` lines
508-530): a factory-fresh token at its home position whose opacity is 255
under `instant_in` and 0 (fade-in) otherwise, with fade and respawn timers
reset. -/
def respawnNewToken (home size : Vec2) (facing0 : String) (tid : ℕ)
    (s : Settings) : Token :=
  let new_token := Token.init home size facing0 tid
  if "instant_in" ∈ s.spawn_behavior then
    { new_token with opacity := 255, fade_timer := 0, time_since_respawn := 0 }
  else
    { new_token with opacity := 0, fade_timer := 0, time_since_respawn := 0 }

/-- The operations that touch an entity's `opacity`/`fade_timer` across
`step` calls: a fade-in update, a respawn (with either spawn behavior), or a
`Token.reset`. -/
inductive LifeOp where
  | fade (dt : ℝ)
  | respawn (home size : Vec2) (facing0 : String) (tid : ℕ)
  | reset

/-- Apply one opacity-touching operation to a token. -/
def applyLifeOp (s : Settings) (t : Token) : LifeOp → Token
  | LifeOp.fade dt => update_token_fade t s dt
  | LifeOp.respawn home size facing0 tid => respawnNewToken home size facing0 tid s
  | LifeOp.reset => t.reset

/-- Run a sequence of opacity-touching operations. -/
def runLifeOps (s : Settings) (t : Token) (ops : List LifeOp) : Token :=
  ops.foldl (applyLifeOp s) t

end

/-- `RespawnManager.schedule_respawn(index)` (`respawn_manager.py` lines
13-15): `self.respawn_queue[index] = time.time()` — dict overwrite, at most
one pending entry per index.  The queue is the dict's association list in
insertion order; timestamps are modelled over `ℚ` (they are only ever
compared). -/
def RespawnManager.schedule_respawn (q : List (ℕ × ℚ)) (i : ℕ) (now : ℚ) :
    List (ℕ × ℚ) :=
  if q.any (fun p => p.1 = i) then q.map (fun p => if p.1 = i then (i, now) else p)
  else q ++ [(i, now)]

/-- `RespawnManager.update()` (`respawn_manager.py` lines 17-28), with the
ambient `time.time()` passed explicitly: returns the ready indices (those
with `now - death_time >= respawn_delay_sec`) and removes them from the
queue, which is returned as the second component. -/
def RespawnManager.update (q : List (ℕ × ℚ)) (delay now : ℚ) :
    List ℕ × List (ℕ × ℚ) :=
  ((q.filter (fun p => delay ≤ now - p.2)).map Prod.fst,
   q.filter (fun p => ¬ (delay ≤ now - p.2)))

/-- **C1**: under circle geometry, the pairwise collision test on two tokens at
identical positions (distance `0`, all current-size components positive)
returns intensity `1.0`, and the separation response is skipped, leaving both
positions unchanged (no division by zero is performed: the response branch
requires `distance > 0`). -/
theorem C1_circle_test_zero_distance (a b : Token) (w : Bool)
    (hpos : a.position = b.position)
    (hax : 0 < a.current_size.x) (hay : 0 < a.current_size.y)
    (hbx : 0 < b.current_size.x) (hby : 0 < b.current_size.y) :
    (Token.check_circle_collision a b w).2.2 = 1 ∧
    (Token.check_circle_collision a b w).1.position = a.position ∧
    (Token.check_circle_collision a b w).2.1.position = b.position := by
  have hra : 0 < min a.current_size.x a.current_size.y / 2 := by
    have := lt_min hax hay
    linarith
  have hrb : 0 < min b.current_size.x b.current_size.y / 2 := by
    have := lt_min hbx hby
    linarith
  have key : Real.sqrt ((a.position.x - b.position.x) * (a.position.x - b.position.x) +
      (a.position.y - b.position.y) * (a.position.y - b.position.y)) = 0 := by
    rw [hpos]
    norm_num
  have hcomb : ¬ ((0:ℝ) ≥ min a.current_size.x a.current_size.y / 2 +
      min b.current_size.x b.current_size.y / 2) := by
    push_neg
    linarith
  have h0 : ¬ ((0:ℝ) > 0) := lt_irrefl 0
  simp only [Token.check_circle_collision]
  rw [key, if_neg hcomb]
  cases w with
  | false => simp
  | true => simp [h0]

theorem Vec2.length_nonneg (v : Vec2) : 0 ≤ v.length := Real.sqrt_nonneg _

theorem Vec2.eta (v : Vec2) : (⟨v.x, v.y⟩ : Vec2) = v := rfl

theorem Vec2.length_smul (c : ℝ) (v : Vec2) : (c • v).length = |c| * v.length := by
  show Real.sqrt (c * v.x * (c * v.x) + c * v.y * (c * v.y)) =
    |c| * Real.sqrt (v.x * v.x + v.y * v.y)
  rw [show c * v.x * (c * v.x) + c * v.y * (c * v.y) = c ^ 2 * (v.x * v.x + v.y * v.y) by ring]
  rw [Real.sqrt_mul (sq_nonneg c), Real.sqrt_sq_eq_abs]

theorem Vec2.add_sub_cancel_left (v a : Vec2) : v + a - v = a := by
  ext
  · show v.x + a.x - v.x = a.x
    ring
  · show v.y + a.y - v.y = a.y
    ring

/-- The code's falloff factor agrees with `strength × falloff(d, max)` for the
four falloff curves as the spec defines them. -/
theorem falloffFactor_eq_spec (s : Settings) (d : ℝ)
    (hf : s.mouse_falloff = "linear" ∨ s.mouse_falloff = "inverse" ∨
      s.mouse_falloff = "quadratic" ∨ s.mouse_falloff = "smoothstep") :
    falloffFactor s d = s.mouse_force_strength *
      specFalloff s.mouse_falloff d s.mouse_max_distance := by
  rcases hf with h | h | h | h <;>
    simp only [falloffFactor, specFalloff, h, String.reduceEq, reduceIte] <;> ring

/-- Each of the four spec falloff curves is nonnegative on `0 < d < max`. -/
theorem specFalloff_nonneg (name : String) (d maxd : ℝ)
    (hf : name = "linear" ∨ name = "inverse" ∨ name = "quadratic" ∨ name = "smoothstep")
    (hd : 0 < d) (hmax : d < maxd) : 0 ≤ specFalloff name d maxd := by
  have hm : 0 < maxd := lt_trans hd hmax
  rcases hf with h | h | h | h
  · subst h
    simp only [specFalloff, String.reduceEq, reduceIte]
    have h1 : d / maxd ≤ 1 := (div_le_one hm).mpr (le_of_lt hmax)
    linarith
  · subst h
    simp only [specFalloff, String.reduceEq, reduceIte]
    positivity
  · subst h
    simp only [specFalloff, String.reduceEq, reduceIte]
    positivity
  · subst h
    simp only [specFalloff, String.reduceEq, reduceIte]
    have ht0 : 0 ≤ max 0 (min 1 (1 - d / maxd)) := le_max_left _ _
    have ht1 : max 0 (min 1 (1 - d / maxd)) ≤ 1 :=
      max_le (by norm_num) (min_le_left _ _)
    nlinarith [mul_nonneg (mul_nonneg ht0 ht0)
      (by linarith : (0:ℝ) ≤ 3 - 2 * (max 0 (min 1 (1 - d / maxd))))]

/-- When the pointer force is enabled and `0 < distance < max_distance`,
`apply_mouse_force` adds `(factor × |mouse_velocity|) • unit` to the velocity
and resets `time_since_force`. -/
theorem apply_mouse_force_hit (t : Token) (mp mv : Vec2) (s : Settings)
    (hen : s.mouse_enabled = true)
    (hd0 : 0 < (t.position - mp).length)
    (hdm : (t.position - mp).length < s.mouse_max_distance) :
    (t.apply_mouse_force mp mv s).velocity = t.velocity +
      ((falloffFactor s (t.position - mp).length * mv.length) •
        ((1 / (t.position - mp).length) • (t.position - mp))) ∧
    (t.apply_mouse_force mp mv s).time_since_force = 0 := by
  have hcond : 0 < (t.position - mp).length ∧
      (t.position - mp).length < s.mouse_max_distance := ⟨hd0, hdm⟩
  simp only [Token.apply_mouse_force, Vec2.eta, hen, reduceIte]
  rw [if_pos hcond]
  cases hla : s.look_at_mouse
  · simp only [Bool.false_eq_true, reduceIte]
    exact ⟨by trivial, by trivial⟩
  · simp only [reduceIte]
    exact ⟨by trivial, by trivial⟩

/-- When `distance = 0` or `distance ≥ max_distance` (or the force is
disabled), `apply_mouse_force` leaves `velocity` and `time_since_force`
unchanged. -/
theorem apply_mouse_force_miss (t : Token) (mp mv : Vec2) (s : Settings)
    (hmiss : ¬(0 < (t.position - mp).length ∧
      (t.position - mp).length < s.mouse_max_distance)) :
    (t.apply_mouse_force mp mv s).velocity = t.velocity ∧
    (t.apply_mouse_force mp mv s).time_since_force = t.time_since_force := by
  simp only [Token.apply_mouse_force, Vec2.eta]
  rw [if_neg hmiss]
  cases hen : s.mouse_enabled <;> cases hla : s.look_at_mouse <;>
    simp only [Bool.false_eq_true, reduceIte] <;> exact ⟨by trivial, by trivial⟩

/-- **C4**: with the mouse force enabled and a recognised falloff curve, if
`0 < distance < max_distance` then `apply_mouse_force` adds to the velocity a
vector along `position − pointer` equal to
`(strength × falloff(d, max) × |pointer_velocity|) • unit`, whose length is
`strength × falloff(d, max) × |pointer_velocity|` (for nonnegative strength),
and resets `time_since_force` to 0; if `distance = 0` or
`distance ≥ max_distance`, velocity and `time_since_force` are unchanged. -/
theorem C4_pointer_force (t : Token) (mp mv : Vec2) (s : Settings)
    (hen : s.mouse_enabled = true)
    (hf : s.mouse_falloff = "linear" ∨ s.mouse_falloff = "inverse" ∨
      s.mouse_falloff = "quadratic" ∨ s.mouse_falloff = "smoothstep") :
    ((0 < (t.position - mp).length ∧ (t.position - mp).length < s.mouse_max_distance) →
      (t.apply_mouse_force mp mv s).velocity = t.velocity +
        ((s.mouse_force_strength *
            specFalloff s.mouse_falloff (t.position - mp).length s.mouse_max_distance *
            mv.length) • ((1 / (t.position - mp).length) • (t.position - mp))) ∧
      (t.apply_mouse_force mp mv s).time_since_force = 0 ∧
      (0 ≤ s.mouse_force_strength →
        ((t.apply_mouse_force mp mv s).velocity - t.velocity).length =
          s.mouse_force_strength *
            specFalloff s.mouse_falloff (t.position - mp).length s.mouse_max_distance *
            mv.length)) ∧
    (((t.position - mp).length = 0 ∨ s.mouse_max_distance ≤ (t.position - mp).length) →
      (t.apply_mouse_force mp mv s).velocity = t.velocity ∧
      (t.apply_mouse_force mp mv s).time_since_force = t.time_since_force) := by
  constructor
  · rintro ⟨hd0, hdm⟩
    obtain ⟨hv, htsf⟩ := apply_mouse_force_hit t mp mv s hen hd0 hdm
    rw [falloffFactor_eq_spec s _ hf] at hv
    refine ⟨hv, htsf, ?_⟩
    intro hstr
    rw [hv, Vec2.add_sub_cancel_left, Vec2.length_smul, Vec2.length_smul]
    have hfall : 0 ≤ specFalloff s.mouse_falloff (t.position - mp).length s.mouse_max_distance :=
      specFalloff_nonneg _ _ _ hf hd0 hdm
    have hmv : 0 ≤ mv.length := Vec2.length_nonneg mv
    rw [abs_of_nonneg (by positivity), abs_of_nonneg (by positivity)]
    field_simp
  · intro hdeg
    refine apply_mouse_force_miss t mp mv s ?_
    rintro ⟨hd0, hdm⟩
    rcases hdeg with h | h
    · exact absurd h (ne_of_gt hd0)
    · exact absurd hdm (not_lt.mpr h)

/-- The example distance from `exTokenC` at `(3,4)` to the origin pointer is 5. -/
theorem exTokenC_dist : (exTokenC.position - exMouse).length = 5 := by
  show Real.sqrt ((3 - 0) * (3 - 0) + (4 - 0) * (4 - 0)) = 5
  rw [show ((3:ℝ) - 0) * (3 - 0) + (4 - 0) * (4 - 0) = 5 ^ 2 by norm_num]
  exact Real.sqrt_sq (by norm_num)

/-- Witness for C1 at a concrete pair of overlapping size-10 tokens. -/
theorem C1_circle_test_zero_distance_witness :
    (Token.check_circle_collision exTokenA exTokenB true).2.2 = 1 ∧
    (Token.check_circle_collision exTokenA exTokenB true).1.position = exTokenA.position ∧
    (Token.check_circle_collision exTokenA exTokenB true).2.1.position = exTokenB.position :=
  C1_circle_test_zero_distance exTokenA exTokenB true rfl
    (by norm_num [exTokenA, Token.init]) (by norm_num [exTokenA, Token.init])
    (by norm_num [exTokenB, Token.init]) (by norm_num [exTokenB, Token.init])

/-- Witness for C4: a token at distance 5 from the pointer with linear
falloff gains the predicted velocity delta and gets its force timer reset. -/
theorem C4_pointer_force_witness :
    (exTokenC.apply_mouse_force exMouse exMouseVel exSettings).time_since_force = 0 ∧
    (exTokenC.apply_mouse_force exMouse exMouseVel exSettings).velocity =
      exTokenC.velocity +
        ((exSettings.mouse_force_strength *
          specFalloff exSettings.mouse_falloff (exTokenC.position - exMouse).length
            exSettings.mouse_max_distance * exMouseVel.length) •
          ((1 / (exTokenC.position - exMouse).length) • (exTokenC.position - exMouse))) := by
  have h := (C4_pointer_force exTokenC exMouse exMouseVel exSettings rfl (Or.inl rfl)).1
    ⟨by rw [exTokenC_dist]; norm_num,
     by rw [exTokenC_dist]; show (5:ℝ) < exSettings.mouse_max_distance
        norm_num [exSettings]⟩
  exact ⟨h.2.1, h.1⟩

/-- **C10**: with the mouse force enabled but a falloff name that is none of
`linear`, `inverse`, `quadratic`, `smoothstep`, the force is still applied for
`0 < distance < max_distance` with the constant factor `strength` (no
distance dependence): the velocity gains
`(strength × |pointer_velocity|) • unit` (a vector of that magnitude for
nonnegative strength) and `time_since_force` is reset to 0. -/
theorem C10_unknown_falloff_constant_force (t : Token) (mp mv : Vec2) (s : Settings)
    (hen : s.mouse_enabled = true)
    (h1 : s.mouse_falloff ≠ "linear") (h2 : s.mouse_falloff ≠ "inverse")
    (h3 : s.mouse_falloff ≠ "quadratic") (h4 : s.mouse_falloff ≠ "smoothstep")
    (hd0 : 0 < (t.position - mp).length)
    (hdm : (t.position - mp).length < s.mouse_max_distance) :
    (t.apply_mouse_force mp mv s).velocity = t.velocity +
      ((s.mouse_force_strength * mv.length) •
        ((1 / (t.position - mp).length) • (t.position - mp))) ∧
    (t.apply_mouse_force mp mv s).time_since_force = 0 ∧
    (0 ≤ s.mouse_force_strength →
      ((t.apply_mouse_force mp mv s).velocity - t.velocity).length =
        s.mouse_force_strength * mv.length) := by
  have hfactor : falloffFactor s (t.position - mp).length = s.mouse_force_strength := by
    unfold falloffFactor
    rw [if_neg h1, if_neg h2, if_neg h3, if_neg h4]
  obtain ⟨hv, htsf⟩ := apply_mouse_force_hit t mp mv s hen hd0 hdm
  rw [hfactor] at hv
  refine ⟨hv, htsf, fun hstr => ?_⟩
  rw [hv, Vec2.add_sub_cancel_left, Vec2.length_smul, Vec2.length_smul]
  have hmv : 0 ≤ mv.length := Vec2.length_nonneg mv
  rw [abs_of_nonneg (by positivity), abs_of_nonneg (by positivity)]
  field_simp

/-- Witness for C10 at a concrete token, pointer and unrecognised falloff. -/
theorem C10_unknown_falloff_constant_force_witness :
    (exTokenC.apply_mouse_force exMouse exMouseVel exSettingsBogus).velocity =
      exTokenC.velocity +
        ((exSettingsBogus.mouse_force_strength * exMouseVel.length) •
          ((1 / (exTokenC.position - exMouse).length) • (exTokenC.position - exMouse))) ∧
    (exTokenC.apply_mouse_force exMouse exMouseVel exSettingsBogus).time_since_force = 0 := by
  have h := C10_unknown_falloff_constant_force exTokenC exMouse exMouseVel exSettingsBogus
    rfl (by decide) (by decide) (by decide) (by decide)
    (by rw [exTokenC_dist]; norm_num)
    (by rw [exTokenC_dist]; show (5:ℝ) < exSettingsBogus.mouse_max_distance
        norm_num [exSettingsBogus, exSettings])
  exact ⟨h.1, h.2.1⟩

theorem updateIntegrate_collision_fields (t : Token) (dt : ℝ) :
    (t.updateIntegrate dt).is_colliding = t.is_colliding ∧
    (t.updateIntegrate dt).collision_partner = t.collision_partner ∧
    (t.updateIntegrate dt).collision_time = t.collision_time ∧
    (t.updateIntegrate dt).bounce_scale = t.bounce_scale :=
  ⟨rfl, rfl, rfl, rfl⟩

theorem updateRotatedSize_collision_fields (t : Token) :
    t.updateRotatedSize.is_colliding = t.is_colliding ∧
    t.updateRotatedSize.collision_partner = t.collision_partner ∧
    t.updateRotatedSize.collision_time = t.collision_time ∧
    t.updateRotatedSize.bounce_scale = t.bounce_scale := by
  unfold Token.updateRotatedSize
  split <;> exact ⟨rfl, rfl, rfl, rfl⟩

theorem updateBounceSize_collision_fields (t : Token) :
    t.updateBounceSize.is_colliding = t.is_colliding ∧
    t.updateBounceSize.collision_partner = t.collision_partner ∧
    t.updateBounceSize.collision_time = t.collision_time ∧
    t.updateBounceSize.bounce_scale = t.bounce_scale := by
  unfold Token.updateBounceSize
  split <;> exact ⟨rfl, rfl, rfl, rfl⟩

theorem updateBoundary_collision_fields (t : Token) (canvas : Vec2) (s : Settings) :
    (t.updateBoundary canvas s).is_colliding = t.is_colliding ∧
    (t.updateBoundary canvas s).collision_partner = t.collision_partner ∧
    (t.updateBoundary canvas s).collision_time = t.collision_time ∧
    (t.updateBoundary canvas s).bounce_scale = t.bounce_scale := by
  simp only [Token.updateBoundary]
  split_ifs <;> exact ⟨rfl, rfl, rfl, rfl⟩

/-- The collision-state fields of `Token.update` are those produced by the
bounce phase: no later phase touches them. -/
theorem update_collision_fields (t : Token) (canvas : Vec2) (s : Settings) (dt : ℝ) :
    (t.update canvas s dt).is_colliding =
      (Token.updateBouncePhase { t with time_since_respawn := t.time_since_respawn + dt } s dt).is_colliding ∧
    (t.update canvas s dt).collision_partner =
      (Token.updateBouncePhase { t with time_since_respawn := t.time_since_respawn + dt } s dt).collision_partner ∧
    (t.update canvas s dt).collision_time =
      (Token.updateBouncePhase { t with time_since_respawn := t.time_since_respawn + dt } s dt).collision_time ∧
    (t.update canvas s dt).bounce_scale =
      (Token.updateBouncePhase { t with time_since_respawn := t.time_since_respawn + dt } s dt).bounce_scale := by
  have h2 := updateIntegrate_collision_fields
    (Token.updateBouncePhase { t with time_since_respawn := t.time_since_respawn + dt } s dt) dt
  have h3 := updateRotatedSize_collision_fields
    ((Token.updateBouncePhase { t with time_since_respawn := t.time_since_respawn + dt } s dt).updateIntegrate dt)
  have h4 : (t.updatePreBoundary s dt).is_colliding =
      ((Token.updateBouncePhase { t with time_since_respawn := t.time_since_respawn + dt } s dt).updateIntegrate dt).updateRotatedSize.is_colliding ∧
      (t.updatePreBoundary s dt).collision_partner =
      ((Token.updateBouncePhase { t with time_since_respawn := t.time_since_respawn + dt } s dt).updateIntegrate dt).updateRotatedSize.collision_partner ∧
      (t.updatePreBoundary s dt).collision_time =
      ((Token.updateBouncePhase { t with time_since_respawn := t.time_since_respawn + dt } s dt).updateIntegrate dt).updateRotatedSize.collision_time ∧
      (t.updatePreBoundary s dt).bounce_scale =
      ((Token.updateBouncePhase { t with time_since_respawn := t.time_since_respawn + dt } s dt).updateIntegrate dt).updateRotatedSize.bounce_scale :=
    updateBounceSize_collision_fields
      (((Token.updateBouncePhase { t with time_since_respawn := t.time_since_respawn + dt } s dt).updateIntegrate dt).updateRotatedSize)
  have h5 := updateBoundary_collision_fields (t.updatePreBoundary s dt) canvas s
  exact ⟨h5.1.trans (h4.1.trans (h3.1.trans h2.1)),
    h5.2.1.trans (h4.2.1.trans (h3.2.1.trans h2.2.1)),
    h5.2.2.1.trans (h4.2.2.1.trans (h3.2.2.1.trans h2.2.2.1)),
    h5.2.2.2.trans (h4.2.2.2.trans (h3.2.2.2.trans h2.2.2.2))⟩

/-- When `collision_time + dt` reaches the bounce duration, the bounce phase
resets the collision state. -/
theorem updateBouncePhase_reset (t0 : Token) (s : Settings) (dt : ℝ)
    (hcol : t0.is_colliding = true)
    (hge : t0.collision_time + dt ≥ s.bounce_duration_ms / 1000) :
    Token.updateBouncePhase t0 s dt =
      { t0 with is_colliding := false, collision_partner := none, collision_time := 0, bounce_scale := 1 } := by
  simp only [Token.updateBouncePhase, hcol, reduceIte]
  rw [if_pos hge]

/-- Before the bounce duration elapses, the bounce phase advances
`collision_time` and applies the triangular envelope. -/
theorem updateBouncePhase_envelope (t0 : Token) (s : Settings) (dt : ℝ)
    (hcol : t0.is_colliding = true)
    (hlt : t0.collision_time + dt < s.bounce_duration_ms / 1000) :
    (Token.updateBouncePhase t0 s dt).bounce_scale =
      (if (t0.collision_time + dt) / (s.bounce_duration_ms / 1000) < 0.5 then
        1 + (s.animation_bounce_scale - 1) *
          (((t0.collision_time + dt) / (s.bounce_duration_ms / 1000)) * 2)
      else s.animation_bounce_scale - (s.animation_bounce_scale - 1) *
          ((((t0.collision_time + dt) / (s.bounce_duration_ms / 1000)) - 0.5) * 2)) ∧
    (Token.updateBouncePhase t0 s dt).collision_time = t0.collision_time + dt := by
  simp only [Token.updateBouncePhase, hcol, reduceIte]
  rw [if_neg (not_le.mpr hlt)]
  exact ⟨rfl, rfl⟩

/-- **C3**: for a colliding token with `bounce_duration_ms = 150` and
`bounce_scale = 1.2`, a frame that brings `collision_time` to 75 ms (50%
progress) sets `bounce_scale = 1.2`; once `collision_time` reaches the
duration the update returns to Normal (`is_colliding = false`, partner
`none`, `collision_time = 0`, `bounce_scale = 1.0`); before that,
`bounce_scale` rises linearly from 1.0 to the maximum over the first half of
the duration and falls linearly back over the second half. -/
theorem C3_bounce_envelope (t : Token) (canvas : Vec2) (s : Settings) (dt : ℝ)
    (hcol : t.is_colliding = true) :
    (s.bounce_duration_ms = 150 → s.animation_bounce_scale = 1.2 →
      t.collision_time + dt = 0.075 → (t.update canvas s dt).bounce_scale = 1.2) ∧
    (t.collision_time + dt ≥ s.bounce_duration_ms / 1000 →
      (t.update canvas s dt).is_colliding = false ∧
      (t.update canvas s dt).collision_partner = none ∧
      (t.update canvas s dt).collision_time = 0 ∧
      (t.update canvas s dt).bounce_scale = 1) ∧
    (t.collision_time + dt < s.bounce_duration_ms / 1000 →
      (((t.collision_time + dt) / (s.bounce_duration_ms / 1000) < 0.5 →
        (t.update canvas s dt).bounce_scale =
          1 + (s.animation_bounce_scale - 1) *
            (2 * ((t.collision_time + dt) / (s.bounce_duration_ms / 1000)))) ∧
      (0.5 ≤ (t.collision_time + dt) / (s.bounce_duration_ms / 1000) →
        (t.update canvas s dt).bounce_scale =
          s.animation_bounce_scale - (s.animation_bounce_scale - 1) *
            (2 * ((t.collision_time + dt) / (s.bounce_duration_ms / 1000)) - 1)))) := by
  obtain ⟨hic, hpart, htime, hscale⟩ := update_collision_fields t canvas s dt
  refine ⟨?_, ?_, ?_⟩
  · intro hdur hbm hct
    have henv := updateBouncePhase_envelope
      { t with time_since_respawn := t.time_since_respawn + dt } s dt hcol
      (by rw [show ({ t with time_since_respawn := t.time_since_respawn + dt } : Token).collision_time
            = t.collision_time from rfl, hct, hdur]
          norm_num)
    rw [hscale, henv.1,
      show ({ t with time_since_respawn := t.time_since_respawn + dt } : Token).collision_time
        = t.collision_time from rfl, hct, hdur, hbm]
    rw [if_neg (by norm_num : ¬((0.075:ℝ) / (150 / 1000) < 0.5))]
    norm_num
  · intro hge
    have hr := updateBouncePhase_reset
      { t with time_since_respawn := t.time_since_respawn + dt } s dt hcol hge
    exact ⟨by rw [hic, hr], by rw [hpart, hr], by rw [htime, hr], by rw [hscale, hr]⟩
  · intro hlt
    have henv := updateBouncePhase_envelope
      { t with time_since_respawn := t.time_since_respawn + dt } s dt hcol hlt
    constructor
    · intro hp
      rw [hscale, henv.1,
        show ({ t with time_since_respawn := t.time_since_respawn + dt } : Token).collision_time
          = t.collision_time from rfl, if_pos hp]
      ring
    · intro hp
      rw [hscale, henv.1,
        show ({ t with time_since_respawn := t.time_since_respawn + dt } : Token).collision_time
          = t.collision_time from rfl, if_neg (not_lt.mpr hp)]
      ring

/-- Witness for C3: the example colliding token at 75 ms of a 150 ms bounce
gets `bounce_scale = 1.2`. -/
theorem C3_bounce_envelope_witness :
    (exTokenColliding.update exCanvas exSettings 0).bounce_scale = 1.2 :=
  (C3_bounce_envelope exTokenColliding exCanvas exSettings 0 rfl).1 rfl rfl
    (by norm_num [exTokenColliding, Token.init])

/-- The example overlapping pair has circle-collision intensity exactly 1. -/
theorem exPair_intensity : collisionIntensity exTokenD exTokenB exSettings = some 1 := by
  have hrect : pyStartsWith (pyLower "circle") "rect" = false := by decide
  simp only [collisionIntensity, exTokenD, exTokenB, exSettings, Token.init, hrect,
    Bool.false_eq_true, reduceIte]
  norm_num

/-- **C2 (amended)**: with the `bounce_pop` behavior, `check_collision`
fires only when `time_since_respawn` is at least (≥, not strictly greater
than) the configured grace period; when the token is eligible and an overlap
intensity is computed, intensity ≥ threshold sets `is_colliding = true`,
`collision_partner = other`, `collision_time = 0`, `bounce_scale = 1.0` and
returns `true`; and `check_collision` never changes the token's position
(and never touches `other` at all). -/
theorem C2_bounce_trigger (self other : Token) (s : Settings) :
    ((Token.check_collision self other s).2 = true →
      s.respawn_collision_delay_sec ≤ self.time_since_respawn ∧
      "bounce_pop" ∈ s.collision_behavior) ∧
    (s.respawn_collision_delay_sec ≤ self.time_since_respawn →
      "bounce_pop" ∈ s.collision_behavior →
      ∀ i, collisionIntensity self other s = some i → s.bounce_threshold ≤ i →
        Token.check_collision self other s =
          ({ self with is_colliding := true, collision_partner := some other.tokenId, collision_time := 0, bounce_scale := 1 }, true)) ∧
    ((Token.check_collision self other s).1.position = self.position) := by
  refine ⟨?_, ?_, ?_⟩
  · intro hfire
    unfold Token.check_collision at hfire
    by_cases h1 : self.time_since_respawn < s.respawn_collision_delay_sec
    · rw [if_pos h1] at hfire
      exact absurd hfire (by simp)
    · refine ⟨not_lt.mp h1, ?_⟩
      by_cases h2 : "bounce_pop" ∈ s.collision_behavior
      · exact h2
      · rw [if_neg h1, if_neg h2] at hfire
        exact absurd hfire (by simp)
  · intro hel hbp i hi hth
    unfold Token.check_collision
    rw [if_neg (not_lt.mpr hel), if_pos hbp]
    split
    · rename_i hnone
      rw [hi] at hnone
      exact absurd hnone (by simp)
    · rename_i val hval
      rw [hi] at hval
      injection hval with hv
      subst hv
      rw [if_pos hth]
  · unfold Token.check_collision
    split
    · rfl
    · split
      · split
        · rfl
        · split
          · rfl
          · rfl
      · rfl

/-- Counterexample to C2 as stated: at `time_since_respawn` exactly equal to
the grace period the trigger fires even though the grace period is not
strictly exceeded. -/
theorem C2_bounce_trigger_counterexample :
    (Token.check_collision exTokenD exTokenB exSettings).2 = true ∧
    ¬ (exTokenD.time_since_respawn > exSettings.respawn_collision_delay_sec) := by
  constructor
  · unfold Token.check_collision
    rw [if_neg (by norm_num [exTokenD, Token.init, exSettings])]
    rw [if_pos (by simp [exSettings])]
    split
    · rename_i hnone
      rw [exPair_intensity] at hnone
      exact absurd hnone (by simp)
    · rename_i val hval
      rw [exPair_intensity] at hval
      injection hval with hv
      subst hv
      rw [if_pos (by norm_num [exSettings])]
  · norm_num [exTokenD, Token.init, exSettings]

/-- Witness for the amended C2 at the concrete overlapping pair. -/
theorem C2_bounce_trigger_witness :
    Token.check_collision exTokenD exTokenB exSettings =
      ({ exTokenD with is_colliding := true, collision_partner := some exTokenB.tokenId, collision_time := 0, bounce_scale := 1 }, true) :=
  (C2_bounce_trigger exTokenD exTokenB exSettings).2.1
    (by norm_num [exTokenD, Token.init, exSettings])
    (by simp [exSettings]) 1 exPair_intensity (by norm_num [exSettings])

theorem Vec2.add_def (a b : Vec2) : a + b = ⟨a.x + b.x, a.y + b.y⟩ := rfl

theorem Vec2.smul_def (c : ℝ) (v : Vec2) : c • v = ⟨c * v.x, c * v.y⟩ := rfl

/-- With flocking disabled, `apply_flocking` is the identity. -/
theorem apply_flocking_disabled (t : Token) (nb : List Token) (s : Settings)
    (h : s.flocking_enabled = false) : t.apply_flocking nb s = t := by
  simp only [Token.apply_flocking, h, Bool.false_eq_true, reduceIte]

/-- With the mouse force and look-at-mouse disabled, `apply_mouse_force` is
the identity. -/
theorem apply_mouse_force_disabled (t : Token) (mp mv : Vec2) (s : Settings)
    (hen : s.mouse_enabled = false) (hla : s.look_at_mouse = false) :
    t.apply_mouse_force mp mv s = t := by
  simp only [Token.apply_mouse_force, hen, hla, Bool.false_eq_true, reduceIte]

/-- At `dt = 0` the home force contributes nothing (its delta is scaled by
`dt`). -/
theorem apply_home_force_dt_zero (t : Token) (s : Settings) :
    t.apply_home_force s 0 = t := by
  simp only [Token.apply_home_force]
  split
  · split
    · have hv : t.velocity +
          ((s.finds_home_strength * 0) • ((1 / (t.home - t.position).length) • (t.home - t.position))) = t.velocity := by
        ext
        · show t.velocity.x + s.finds_home_strength * 0 *
            (1 / (t.home - t.position).length * (t.home - t.position).x) = t.velocity.x
          ring
        · show t.velocity.y + s.finds_home_strength * 0 *
            (1 / (t.home - t.position).length * (t.home - t.position).y) = t.velocity.y
          ring
      rw [hv]
    · rfl
  · rfl

/-- `check_collision` changes only the collision-state fields: position and
velocity are untouched. -/
theorem check_collision_pos_vel (self other : Token) (s : Settings) :
    (Token.check_collision self other s).1.position = self.position ∧
    (Token.check_collision self other s).1.velocity = self.velocity := by
  unfold Token.check_collision
  split
  · exact ⟨rfl, rfl⟩
  · split
    · split
      · exact ⟨rfl, rfl⟩
      · split
        · exact ⟨rfl, rfl⟩
        · exact ⟨rfl, rfl⟩
    · exact ⟨rfl, rfl⟩

theorem foldCheck_pos_vel (s : Settings) (tid : ℕ) (L : List Token) :
    ∀ acc : Token,
      ((L.foldl (fun acc other => if other.tokenId = tid then acc
          else (acc.check_collision other s).1) acc).position = acc.position ∧
       (L.foldl (fun acc other => if other.tokenId = tid then acc
          else (acc.check_collision other s).1) acc).velocity = acc.velocity) := by
  induction L with
  | nil => exact fun acc => ⟨rfl, rfl⟩
  | cons c cs ih =>
    intro acc
    simp only [List.foldl_cons]
    obtain ⟨hp, hv⟩ := ih (if c.tokenId = tid then acc else (acc.check_collision c s).1)
    constructor
    · rw [hp]
      split
      · rfl
      · exact (check_collision_pos_vel acc c s).1
    · rw [hv]
      split
      · rfl
      · exact (check_collision_pos_vel acc c s).2

/-- The collision loop never moves the token or changes its velocity. -/
theorem checkCollisionsRun_pos_vel (t : Token) (cands : List Token) (s : Settings) :
    (checkCollisionsRun t cands s).position = t.position ∧
    (checkCollisionsRun t cands s).velocity = t.velocity :=
  foldCheck_pos_vel s t.tokenId cands t

theorem updateBouncePhase_pos_vel (t0 : Token) (s : Settings) (dt : ℝ) :
    (Token.updateBouncePhase t0 s dt).position = t0.position ∧
    (Token.updateBouncePhase t0 s dt).velocity = t0.velocity := by
  simp only [Token.updateBouncePhase]
  split_ifs <;> exact ⟨rfl, rfl⟩

theorem updateRotatedSize_pos_vel (t : Token) :
    t.updateRotatedSize.position = t.position ∧
    t.updateRotatedSize.velocity = t.velocity := by
  simp only [Token.updateRotatedSize]
  split_ifs <;> exact ⟨rfl, rfl⟩

theorem updateBounceSize_pos_vel (t : Token) :
    t.updateBounceSize.position = t.position ∧
    t.updateBounceSize.velocity = t.velocity := by
  simp only [Token.updateBounceSize]
  split_ifs <;> exact ⟨rfl, rfl⟩

/-- Up to the boundary phase, one update step advances the position by
exactly the current velocity and damps the velocity by the fixed 0.9. -/
theorem updatePreBoundary_pos_vel (t : Token) (s : Settings) (dt : ℝ) :
    (t.updatePreBoundary s dt).position = t.position + t.velocity ∧
    (t.updatePreBoundary s dt).velocity = (0.9 : ℝ) • t.velocity := by
  have hb := updateBouncePhase_pos_vel
    { t with time_since_respawn := t.time_since_respawn + dt } s dt
  have h3 := updateRotatedSize_pos_vel
    ((Token.updateBouncePhase { t with time_since_respawn := t.time_since_respawn + dt } s dt).updateIntegrate dt)
  have h4 : (t.updatePreBoundary s dt).position =
      ((Token.updateBouncePhase { t with time_since_respawn := t.time_since_respawn + dt } s dt).updateIntegrate dt).updateRotatedSize.position ∧
      (t.updatePreBoundary s dt).velocity =
      ((Token.updateBouncePhase { t with time_since_respawn := t.time_since_respawn + dt } s dt).updateIntegrate dt).updateRotatedSize.velocity :=
    updateBounceSize_pos_vel
      (((Token.updateBouncePhase { t with time_since_respawn := t.time_since_respawn + dt } s dt).updateIntegrate dt).updateRotatedSize)
  have hint : ((Token.updateBouncePhase { t with time_since_respawn := t.time_since_respawn + dt } s dt).updateIntegrate dt).position =
      (Token.updateBouncePhase { t with time_since_respawn := t.time_since_respawn + dt } s dt).position +
      (Token.updateBouncePhase { t with time_since_respawn := t.time_since_respawn + dt } s dt).velocity ∧
      ((Token.updateBouncePhase { t with time_since_respawn := t.time_since_respawn + dt } s dt).updateIntegrate dt).velocity =
      (0.9 : ℝ) • (Token.updateBouncePhase { t with time_since_respawn := t.time_since_respawn + dt } s dt).velocity :=
    ⟨rfl, rfl⟩
  constructor
  · rw [h4.1, h3.1, hint.1, hb.1, hb.2]
  · rw [h4.2, h3.2, hint.2, hb.2]

/-- With wall bounce enabled and the advanced position inside the canvas
margins, the boundary phase changes nothing, so `update` advances the
position by the velocity and damps the velocity by 0.9. -/
theorem update_pos_vel_in_bounds (t : Token) (canvas : Vec2) (s : Settings) (dt : ℝ)
    (hwb : s.enable_wall_bounce = true)
    (h1 : ¬ ((t.updatePreBoundary s dt).position.x - (t.updatePreBoundary s dt).current_size.x / 2 < 0))
    (h2 : ¬ ((t.updatePreBoundary s dt).position.x + (t.updatePreBoundary s dt).current_size.x / 2 > canvas.x))
    (h3 : ¬ ((t.updatePreBoundary s dt).position.y - (t.updatePreBoundary s dt).current_size.y / 2 < 0))
    (h4 : ¬ ((t.updatePreBoundary s dt).position.y + (t.updatePreBoundary s dt).current_size.y / 2 > canvas.y)) :
    (t.update canvas s dt).position = t.position + t.velocity ∧
    (t.update canvas s dt).velocity = (0.9 : ℝ) • t.velocity := by
  have hb : ((t.updatePreBoundary s dt).updateBoundary canvas s).position =
      (t.updatePreBoundary s dt).position ∧
      ((t.updatePreBoundary s dt).updateBoundary canvas s).velocity =
      (t.updatePreBoundary s dt).velocity := by
    simp only [Token.updateBoundary, hwb, reduceIte]
    rw [if_neg h1, if_neg h2, if_neg h3, if_neg h4]
    exact ⟨rfl, rfl⟩
  have hpv := updatePreBoundary_pos_vel t s dt
  exact ⟨hb.1.trans hpv.1, hb.2.trans hpv.2⟩

/-- For a token with zero rotation, not colliding and unit bounce scale, the
pre-boundary phase reports `current_size = original_size`. -/
theorem updatePreBoundary_size_simple (t : Token) (s : Settings) (dt : ℝ)
    (hrot : t.rotation = 0) (hcol : t.is_colliding = false) (hbs : t.bounce_scale = 1) :
    (t.updatePreBoundary s dt).current_size = t.original_size := by
  have h0 : Token.updateBouncePhase { t with time_since_respawn := t.time_since_respawn + dt } s dt =
      { t with time_since_respawn := t.time_since_respawn + dt } := by
    unfold Token.updateBouncePhase
    rw [if_neg (by simp [hcol])]
  show ((((Token.updateBouncePhase { t with time_since_respawn := t.time_since_respawn + dt } s dt).updateIntegrate dt).updateRotatedSize).updateBounceSize).current_size = t.original_size
  rw [h0]
  unfold Token.updateIntegrate Token.updateRotatedSize
  rw [if_neg (by simp [hrot])]
  unfold Token.updateBounceSize
  rw [if_neg (by simp [hbs])]

/-- **C5 (amended)**: in a bounded (wall-bounce), pointer-disabled,
flocking-disabled configuration, a step with `dt = 0` advances each entity's
position by exactly its current velocity (`position += velocity` is not
scaled by `dt`) and changes its velocity only by the fixed `*= 0.9` damping,
provided the advanced position stays within the canvas margins.  In
particular an entity with zero velocity keeps position and velocity
unchanged. -/
theorem C5_step_dt_zero (t : Token) (nb cands : List Token) (mp mv : Vec2)
    (s : Settings) (canvas : Vec2)
    (hen : s.mouse_enabled = false) (hla : s.look_at_mouse = false)
    (hfl : s.flocking_enabled = false) (hwb : s.enable_wall_bounce = true)
    (h1 : ¬ (((checkCollisionsRun t cands s).updatePreBoundary s 0).position.x -
      ((checkCollisionsRun t cands s).updatePreBoundary s 0).current_size.x / 2 < 0))
    (h2 : ¬ (((checkCollisionsRun t cands s).updatePreBoundary s 0).position.x +
      ((checkCollisionsRun t cands s).updatePreBoundary s 0).current_size.x / 2 > canvas.x))
    (h3 : ¬ (((checkCollisionsRun t cands s).updatePreBoundary s 0).position.y -
      ((checkCollisionsRun t cands s).updatePreBoundary s 0).current_size.y / 2 < 0))
    (h4 : ¬ (((checkCollisionsRun t cands s).updatePreBoundary s 0).position.y +
      ((checkCollisionsRun t cands s).updatePreBoundary s 0).current_size.y / 2 > canvas.y)) :
    (stepToken t nb cands mp mv s canvas 0).position = t.position + t.velocity ∧
    (stepToken t nb cands mp mv s canvas 0).velocity = (0.9 : ℝ) • t.velocity := by
  have hstep : stepToken t nb cands mp mv s canvas 0 =
      (checkCollisionsRun t cands s).update canvas s 0 := by
    simp only [stepToken]
    rw [apply_flocking_disabled t nb s hfl, apply_mouse_force_disabled t mp mv s hen hla,
      apply_home_force_dt_zero t s]
  have hd := checkCollisionsRun_pos_vel t cands s
  obtain ⟨hp, hv⟩ := update_pos_vel_in_bounds (checkCollisionsRun t cands s) canvas s 0
    hwb h1 h2 h3 h4
  rw [hstep, hp, hv, hd.1, hd.2]
  exact ⟨rfl, rfl⟩

/-- The moving example token's pre-boundary state after a `dt = 0` step:
position advanced by the velocity, size unchanged. -/
theorem exTokenMoving_pre : (exTokenMoving.updatePreBoundary exSettingsFrozen 0).position = ⟨101, 100⟩ ∧
    (exTokenMoving.updatePreBoundary exSettingsFrozen 0).current_size = ⟨10, 10⟩ := by
  constructor
  · rw [(updatePreBoundary_pos_vel exTokenMoving exSettingsFrozen 0).1]
    ext
    · show (100 : ℝ) + 1 = 101
      norm_num
    · show (100 : ℝ) + 0 = 100
      norm_num
  · exact updatePreBoundary_size_simple exTokenMoving exSettingsFrozen 0 rfl rfl rfl

/-- Counterexample to C5 as stated: in the bounded pointer/flocking-disabled
configuration, a `dt = 0` step moves the example token (by its velocity), so
positions are not left unchanged. -/
theorem C5_step_dt_zero_counterexample :
    (stepToken exTokenMoving [] [] exMouse exMouseVel exSettingsFrozen exCanvas 0).position ≠
      exTokenMoving.position := by
  have hstep : stepToken exTokenMoving [] [] exMouse exMouseVel exSettingsFrozen exCanvas 0 =
      exTokenMoving.update exCanvas exSettingsFrozen 0 := by
    simp only [stepToken]
    rw [apply_flocking_disabled _ _ _ rfl, apply_mouse_force_disabled _ _ _ _ rfl rfl,
      apply_home_force_dt_zero]
    rfl
  obtain ⟨hpre, hsz⟩ := exTokenMoving_pre
  have hpos := (update_pos_vel_in_bounds exTokenMoving exCanvas exSettingsFrozen 0 rfl
    (by rw [hpre, hsz]; show ¬ ((101 : ℝ) - 10 / 2 < 0); norm_num)
    (by rw [hpre, hsz]; show ¬ ((101 : ℝ) + 10 / 2 > 1000); norm_num)
    (by rw [hpre, hsz]; show ¬ ((100 : ℝ) - 10 / 2 < 0); norm_num)
    (by rw [hpre, hsz]; show ¬ ((100 : ℝ) + 10 / 2 > 1000); norm_num)).1
  rw [hstep, hpos]
  intro heq
  have hx := congrArg Vec2.x heq
  have : (100 : ℝ) + 1 = 100 := hx
  norm_num at this

/-- Witness for the amended C5 at the concrete moving token. -/
theorem C5_step_dt_zero_witness :
    (stepToken exTokenMoving [] [] exMouse exMouseVel exSettingsFrozen exCanvas 0).position =
      exTokenMoving.position + exTokenMoving.velocity ∧
    (stepToken exTokenMoving [] [] exMouse exMouseVel exSettingsFrozen exCanvas 0).velocity =
      (0.9 : ℝ) • exTokenMoving.velocity := by
  obtain ⟨hpre, hsz⟩ := exTokenMoving_pre
  exact C5_step_dt_zero exTokenMoving [] [] exMouse exMouseVel exSettingsFrozen exCanvas
    rfl rfl rfl rfl
    (by rw [show checkCollisionsRun exTokenMoving [] exSettingsFrozen = exTokenMoving from rfl,
          hpre, hsz]
        show ¬ ((101 : ℝ) - 10 / 2 < 0); norm_num)
    (by rw [show checkCollisionsRun exTokenMoving [] exSettingsFrozen = exTokenMoving from rfl,
          hpre, hsz]
        show ¬ ((101 : ℝ) + 10 / 2 > 1000); norm_num)
    (by rw [show checkCollisionsRun exTokenMoving [] exSettingsFrozen = exTokenMoving from rfl,
          hpre, hsz]
        show ¬ ((100 : ℝ) - 10 / 2 < 0); norm_num)
    (by rw [show checkCollisionsRun exTokenMoving [] exSettingsFrozen = exTokenMoving from rfl,
          hpre, hsz]
        show ¬ ((100 : ℝ) + 10 / 2 > 1000); norm_num)

theorem Vec2.abs_x_le_length (v : Vec2) : |v.x| ≤ v.length := by
  rw [show v.length = Real.sqrt (v.x * v.x + v.y * v.y) from rfl]
  calc |v.x| = Real.sqrt (v.x * v.x) := (Real.sqrt_mul_self_eq_abs v.x).symm
  _ ≤ Real.sqrt (v.x * v.x + v.y * v.y) :=
      Real.sqrt_le_sqrt (by nlinarith [mul_self_nonneg v.y])

theorem Vec2.abs_y_le_length (v : Vec2) : |v.y| ≤ v.length := by
  rw [show v.length = Real.sqrt (v.x * v.x + v.y * v.y) from rfl]
  calc |v.y| = Real.sqrt (v.y * v.y) := (Real.sqrt_mul_self_eq_abs v.y).symm
  _ ≤ Real.sqrt (v.x * v.x + v.y * v.y) :=
      Real.sqrt_le_sqrt (by nlinarith [mul_self_nonneg v.x])

/-- Floor-cell separation bound: if `a - b ≤ r` then their cells differ by at
most `⌊r / cs⌋ + 1`. -/
theorem floor_diff_le (cs r a b : ℝ) (hcs : 0 < cs) (h : a - b ≤ r) :
    ⌊a / cs⌋ - ⌊b / cs⌋ ≤ ⌊r / cs⌋ + 1 := by
  have h1 : (⌊a / cs⌋ : ℝ) ≤ a / cs := Int.floor_le _
  have h2 : b / cs - 1 < (⌊b / cs⌋ : ℝ) := Int.sub_one_lt_floor (b / cs)
  have h3 : (a - b) / cs ≤ r / cs := div_le_div_of_nonneg_right h hcs.le
  rw [sub_div] at h3
  have h4 : r / cs < (⌊r / cs⌋ : ℝ) + 1 := Int.lt_floor_add_one _
  have h5 : (⌊a / cs⌋ - ⌊b / cs⌋ : ℝ) < (⌊r / cs⌋ : ℝ) + 2 := by linarith
  have h6 : ⌊a / cs⌋ - ⌊b / cs⌋ < ⌊r / cs⌋ + 2 := by exact_mod_cast h5
  omega

theorem mem_rangeOffsets (c k : ℤ) (h1 : -c ≤ k) (h2 : k ≤ c) : k ∈ rangeOffsets c := by
  unfold rangeOffsets
  exact List.mem_map.mpr ⟨(k + c).toNat, List.mem_range.mpr (by omega),
    by show -c + (((k + c).toNat : ℕ) : ℤ) = k; omega⟩

theorem rangeOffsets_bound (c k : ℤ) (h : k ∈ rangeOffsets c) : -c ≤ k ∧ k ≤ c := by
  unfold rangeOffsets at h
  obtain ⟨i, hi, hk⟩ := List.mem_map.mp h
  rw [List.mem_range] at hi
  have hk' : -c + (i : ℤ) = k := hk
  omega

/-- Every token inserted into the grid is found in its own cell. -/
theorem mem_grid_foldl (cs : ℝ) (toks : List (Option Token)) (t : Token) :
    ∀ g : ℤ × ℤ → List Token,
      (some t ∈ toks ∨ t ∈ g (cellCoords cs t.position)) →
      t ∈ (toks.foldl (SpatialGrid.insert cs) g) (cellCoords cs t.position) := by
  induction toks with
  | nil =>
    intro g h
    rcases h with h | h
    · exact absurd h (List.not_mem_nil _)
    · exact h
  | cons c cst ih =>
    intro g h
    simp only [List.foldl_cons]
    apply ih
    rcases h with h | h
    · rcases List.mem_cons.mp h with h | h
      · right
        rw [← h]
        simp only [SpatialGrid.insert, Function.update_same]
        exact List.mem_append.mpr (Or.inr (List.mem_singleton.mpr rfl))
      · left
        exact h
    · right
      cases c with
      | none => exact h
      | some u =>
        simp only [SpatialGrid.insert]
        by_cases hcc : cellCoords cs t.position = cellCoords cs u.position
        · rw [hcc, Function.update_same]
          rw [← hcc]
          exact List.mem_append.mpr (Or.inl h)
        · rw [Function.update_noteq hcc]
          exact h

theorem mem_gridUpdate (cs : ℝ) (toks : List (Option Token)) (t : Token)
    (ht : some t ∈ toks) :
    t ∈ SpatialGrid.update cs toks (cellCoords cs t.position) :=
  mem_grid_foldl cs toks t (fun _ => []) (Or.inl ht)

/-- **C6**: for every grid rebuilt from a token list and every query point
and radius (`cell_size > 0`, `radius ≥ 0`), every inserted token whose
position lies within the radius of the query point is contained in the
result of `get_nearby_tokens` — the query is a superset of the true radius
match. -/
theorem C6_grid_superset (cs radius : ℝ) (toks : List (Option Token)) (pt : Vec2)
    (t : Token) (hcs : 0 < cs) (hr : 0 ≤ radius) (ht : some t ∈ toks)
    (hd : (t.position - pt).length ≤ radius) :
    t ∈ SpatialGrid.get_nearby_tokens cs (SpatialGrid.update cs toks) pt radius := by
  have hfl : 0 ≤ ⌊radius / cs⌋ := Int.floor_nonneg.mpr (by positivity)
  have hx : |t.position.x - pt.x| ≤ radius :=
    le_trans (Vec2.abs_x_le_length (t.position - pt)) hd
  have hy : |t.position.y - pt.y| ≤ radius :=
    le_trans (Vec2.abs_y_le_length (t.position - pt)) hd
  have hdx1 : ⌊t.position.x / cs⌋ - ⌊pt.x / cs⌋ ≤ ⌊radius / cs⌋ + 1 :=
    floor_diff_le cs radius _ _ hcs (abs_le.mp hx).2
  have hdx2 : ⌊pt.x / cs⌋ - ⌊t.position.x / cs⌋ ≤ ⌊radius / cs⌋ + 1 :=
    floor_diff_le cs radius _ _ hcs (by linarith [(abs_le.mp hx).1])
  have hdy1 : ⌊t.position.y / cs⌋ - ⌊pt.y / cs⌋ ≤ ⌊radius / cs⌋ + 1 :=
    floor_diff_le cs radius _ _ hcs (abs_le.mp hy).2
  have hdy2 : ⌊pt.y / cs⌋ - ⌊t.position.y / cs⌋ ≤ ⌊radius / cs⌋ + 1 :=
    floor_diff_le cs radius _ _ hcs (by linarith [(abs_le.mp hy).1])
  have hmax := le_max_right (1 : ℤ) (⌊radius / cs⌋ + 1)
  simp only [SpatialGrid.get_nearby_tokens]
  refine List.mem_flatMap.mpr ⟨⌊t.position.x / cs⌋ - ⌊pt.x / cs⌋,
    mem_rangeOffsets _ _ (by omega) (by omega), ?_⟩
  refine List.mem_flatMap.mpr ⟨⌊t.position.y / cs⌋ - ⌊pt.y / cs⌋,
    mem_rangeOffsets _ _ (by omega) (by omega), ?_⟩
  have hcell : ((cellCoords cs pt).1 + (⌊t.position.x / cs⌋ - ⌊pt.x / cs⌋),
      (cellCoords cs pt).2 + (⌊t.position.y / cs⌋ - ⌊pt.y / cs⌋)) =
      cellCoords cs t.position := by
    simp only [cellCoords, Prod.mk.injEq]
    omega
  rw [hcell]
  exact mem_gridUpdate cs toks t ht

/-- Witness for C6: the token at `(175, 0)` is within radius 50 of the query
point `(160, 0)` and is returned by the grid query. -/
theorem C6_grid_superset_witness :
    exTokenFar ∈ SpatialGrid.get_nearby_tokens 50 (SpatialGrid.update 50 exGridTokens)
      ⟨160, 0⟩ 50 :=
  C6_grid_superset 50 50 exGridTokens ⟨160, 0⟩ exTokenFar (by norm_num) (by norm_num)
    (by simp [exGridTokens])
    (by show Real.sqrt ((175 - 160) * (175 - 160) + (0 - 0) * (0 - 0)) ≤ 50
        rw [show ((175:ℝ) - 160) * (175 - 160) + (0 - 0) * (0 - 0) = 15 ^ 2 by norm_num,
          Real.sqrt_sq (by norm_num : (0:ℝ) ≤ 15)]
        norm_num)

/-- **C7 (amended)**: `get_nearby_tokens` returns exactly the union of the
cells within `max(1, ⌊radius / cell_size⌋ + 1)` rings (Chebyshev distance) of
the query point's cell — `floor`, not the `ceil` the spec claims. -/
theorem C7_nearby_ring_union (cs radius : ℝ) (g : ℤ × ℤ → List Token) (pt : Vec2)
    (x : Token) :
    x ∈ SpatialGrid.get_nearby_tokens cs g pt radius ↔
      ∃ dx dy : ℤ, |dx| ≤ max 1 (⌊radius / cs⌋ + 1) ∧ |dy| ≤ max 1 (⌊radius / cs⌋ + 1) ∧
        x ∈ g ((cellCoords cs pt).1 + dx, (cellCoords cs pt).2 + dy) := by
  simp only [SpatialGrid.get_nearby_tokens, List.mem_flatMap]
  constructor
  · rintro ⟨dx, hdx, dy, hdy, hx⟩
    obtain ⟨h1, h2⟩ := rangeOffsets_bound _ _ hdx
    obtain ⟨h3, h4⟩ := rangeOffsets_bound _ _ hdy
    exact ⟨dx, dy, abs_le.mpr ⟨h1, h2⟩, abs_le.mpr ⟨h3, h4⟩, hx⟩
  · rintro ⟨dx, dy, h1, h2, hx⟩
    exact ⟨dx, mem_rangeOffsets _ _ (abs_le.mp h1).1 (abs_le.mp h1).2,
      dy, mem_rangeOffsets _ _ (abs_le.mp h2).1 (abs_le.mp h2).2, hx⟩

theorem floor_175_50 : ⌊(175:ℝ) / 50⌋ = 3 := by
  rw [Int.floor_eq_iff]
  norm_num

theorem floor_75_50 : ⌊(75:ℝ) / 50⌋ = 1 := by
  rw [Int.floor_eq_iff]
  norm_num

theorem ceil_75_50 : ⌈(75:ℝ) / 50⌉ = 2 := by
  rw [Int.ceil_eq_iff]
  norm_num

theorem floor_0_50 : ⌊(0:ℝ) / 50⌋ = 0 := by
  norm_num

/-- The cell of the example far token for `cell_size = 50` is `(3, 0)`. -/
theorem exTokenFar_cell : cellCoords 50 exTokenFar.position = (3, 0) := by
  simp only [cellCoords, exTokenFar, Token.init, Prod.mk.injEq]
  exact ⟨floor_175_50, by norm_num⟩

/-- The cell of the origin for `cell_size = 50` is `(0, 0)`. -/
theorem origin_cell : cellCoords 50 (⟨0, 0⟩ : Vec2) = (0, 0) := by
  simp only [cellCoords, Prod.mk.injEq]
  constructor <;> norm_num

/-- In the example one-token grid, the far token is stored only in cell
`(3, 0)`. -/
theorem exGrid_only_cell (cell : ℤ × ℤ)
    (hm : exTokenFar ∈ SpatialGrid.update 50 exGridTokens cell) : cell = (3, 0) := by
  simp only [SpatialGrid.update, exGridTokens, List.foldl_cons, List.foldl_nil,
    SpatialGrid.insert] at hm
  rw [exTokenFar_cell] at hm
  by_cases hcc : cell = (3, 0)
  · exact hcc
  · rw [Function.update_noteq hcc] at hm
    exact absurd hm (List.not_mem_nil _)

/-- Counterexample to C7 as stated: with `cell_size = 50` and `radius = 75`,
the spec's `ceil(radius/cell_size) + 1 = 3` rings include the token in cell
`(3, 0)`, but the code checks only `⌊radius/cell_size⌋ + 1 = 2` rings and
does not return it. -/
theorem C7_nearby_ring_union_counterexample :
    exTokenFar ∈ specRingUnion 50 (SpatialGrid.update 50 exGridTokens) ⟨0, 0⟩ 75 ∧
    exTokenFar ∉ SpatialGrid.get_nearby_tokens 50 (SpatialGrid.update 50 exGridTokens)
      ⟨0, 0⟩ 75 := by
  constructor
  · simp only [specRingUnion]
    rw [ceil_75_50]
    refine List.mem_flatMap.mpr ⟨3, mem_rangeOffsets _ _ (by norm_num) (by norm_num), ?_⟩
    refine List.mem_flatMap.mpr ⟨0, mem_rangeOffsets _ _ (by norm_num) (by norm_num), ?_⟩
    rw [origin_cell,
      show (((0, 0) : ℤ × ℤ).1 + 3, ((0, 0) : ℤ × ℤ).2 + 0) = ((3 : ℤ), (0 : ℤ)) by decide,
      ← exTokenFar_cell]
    exact mem_gridUpdate 50 exGridTokens exTokenFar (by simp [exGridTokens])
  · intro hmem
    simp only [SpatialGrid.get_nearby_tokens, List.mem_flatMap] at hmem
    obtain ⟨dx, hdx, dy, hdy, hx⟩ := hmem
    rw [floor_75_50] at hdx hdy
    obtain ⟨hdx1, hdx2⟩ := rangeOffsets_bound _ _ hdx
    obtain ⟨hdy1, hdy2⟩ := rangeOffsets_bound _ _ hdy
    rw [origin_cell] at hx
    have hcell := exGrid_only_cell _ hx
    rw [Prod.mk.injEq] at hcell
    have h3 : (0 : ℤ) + dx = 3 := hcell.1
    have hmax : max (1 : ℤ) (1 + 1) = 2 := by norm_num
    rw [hmax] at hdx2
    omega

/-- Every pending entry for index `i` after `schedule_respawn(i)` carries the
new death time `T` (dict overwrite). -/
theorem schedule_respawn_key_val (q : List (ℕ × ℚ)) (i : ℕ) (T : ℚ) :
    ∀ p ∈ RespawnManager.schedule_respawn q i T, p.1 = i → p.2 = T := by
  intro p hp hpi
  unfold RespawnManager.schedule_respawn at hp
  split at hp
  · obtain ⟨p0, hp0, hmap⟩ := List.mem_map.mp hp
    by_cases h0 : p0.1 = i
    · rw [if_pos h0] at hmap
      rw [← hmap]
    · rw [if_neg h0] at hmap
      rw [← hmap] at hpi
      exact absurd hpi h0
  · rcases List.mem_append.mp hp with h | h
    · rename_i hany
      have hni : ¬ (p.1 = i) := fun hpi2 =>
        hany (List.any_eq_true.mpr ⟨p, h, by simpa using hpi2⟩)
      exact absurd hpi hni
    · rw [List.mem_singleton.mp h]

/-- `(i, T)` is pending after `schedule_respawn(i)` at time `T`. -/
theorem schedule_respawn_mem (q : List (ℕ × ℚ)) (i : ℕ) (T : ℚ) :
    (i, T) ∈ RespawnManager.schedule_respawn q i T := by
  unfold RespawnManager.schedule_respawn
  split
  · rename_i hany
    obtain ⟨p0, hp0, hp0i⟩ := List.any_eq_true.mp hany
    refine List.mem_map.mpr ⟨p0, hp0, ?_⟩
    rw [if_pos (by simpa using hp0i)]
  · exact List.mem_append.mpr (Or.inr (List.mem_singleton.mpr rfl))

/-- Scheduling preserves uniqueness of pending keys (at most one pending
respawn per slot). -/
theorem schedule_respawn_nodup (q : List (ℕ × ℚ)) (i : ℕ) (T : ℚ)
    (h : (q.map Prod.fst).Nodup) :
    ((RespawnManager.schedule_respawn q i T).map Prod.fst).Nodup := by
  unfold RespawnManager.schedule_respawn
  split
  · rw [List.map_map]
    have : (Prod.fst ∘ fun p : ℕ × ℚ => if p.1 = i then (i, T) else p) = Prod.fst := by
      funext p
      by_cases h0 : p.1 = i
      · simp [h0]
      · simp [h0]
    rw [this]
    exact h
  · rename_i hany
    have hnotin : ∀ p ∈ q, ¬ (p.1 = i) := fun p hp hpi =>
      hany (List.any_eq_true.mpr ⟨p, hp, by simpa using hpi⟩)
    rw [List.map_append]
    refine List.Nodup.append h (List.nodup_singleton i) ?_
    intro a ha hai
    obtain ⟨p, hp, rfl⟩ := List.mem_map.mp ha
    simp only [List.map_cons, List.map_nil, List.mem_singleton] at hai
    exact hnotin p hp hai

/-- **C8**: with `respawn_delay = 1.0`, after `schedule_respawn(i)` records
death time `T` over a queue with unique keys: a drain at `t < T + 1` does
not return `i` and keeps the `(i, T)` entry pending; a drain at `t ≥ T + 1`
returns `i` and removes it; and scheduling overwrites so all pending entries
for `i` carry `T` and keys stay unique (at most one pending per slot). -/
theorem C8_respawn_timing (q : List (ℕ × ℚ)) (i : ℕ) (T t : ℚ)
    (hnodup : (q.map Prod.fst).Nodup) :
    (t < T + 1 →
      i ∉ (RespawnManager.update (RespawnManager.schedule_respawn q i T) 1 t).1 ∧
      (i, T) ∈ (RespawnManager.update (RespawnManager.schedule_respawn q i T) 1 t).2) ∧
    (T + 1 ≤ t →
      i ∈ (RespawnManager.update (RespawnManager.schedule_respawn q i T) 1 t).1 ∧
      i ∉ ((RespawnManager.update (RespawnManager.schedule_respawn q i T) 1 t).2).map Prod.fst) ∧
    ((∀ p ∈ RespawnManager.schedule_respawn q i T, p.1 = i → p.2 = T) ∧
      ((RespawnManager.schedule_respawn q i T).map Prod.fst).Nodup) := by
  refine ⟨?_, ?_, schedule_respawn_key_val q i T, schedule_respawn_nodup q i T hnodup⟩
  · intro hlt
    constructor
    · intro hmem
      simp only [RespawnManager.update, List.mem_map] at hmem
      obtain ⟨p, hp, hpi⟩ := hmem
      rw [List.mem_filter] at hp
      have hT := schedule_respawn_key_val q i T p hp.1 hpi
      have hcond : (1 : ℚ) ≤ t - p.2 := by simpa using hp.2
      rw [hT] at hcond
      linarith
    · simp only [RespawnManager.update]
      rw [List.mem_filter]
      refine ⟨schedule_respawn_mem q i T, ?_⟩
      simp only [decide_eq_true_eq]
      intro hcond
      linarith
  · intro hge
    constructor
    · simp only [RespawnManager.update, List.mem_map]
      refine ⟨(i, T), ?_, rfl⟩
      rw [List.mem_filter]
      refine ⟨schedule_respawn_mem q i T, ?_⟩
      simp only [decide_eq_true_eq]
      linarith
    · intro hmem
      simp only [RespawnManager.update, List.mem_map] at hmem
      obtain ⟨p, hp, hpi⟩ := hmem
      rw [List.mem_filter] at hp
      have hT := schedule_respawn_key_val q i T p hp.1 hpi
      have hcond := hp.2
      simp only [decide_eq_true_eq] at hcond
      rw [hT] at hcond
      push_neg at hcond
      linarith

/-- Witness for C8 at a concrete queue, index and times. -/
theorem C8_respawn_timing_witness :
    (1 ∉ (RespawnManager.update (RespawnManager.schedule_respawn [(0, 2)] 1 10) 1 (21/2)).1 ∧
      ((1 : ℕ), (10 : ℚ)) ∈ (RespawnManager.update (RespawnManager.schedule_respawn [(0, 2)] 1 10) 1 (21/2)).2) ∧
    (1 ∈ (RespawnManager.update (RespawnManager.schedule_respawn [(0, 2)] 1 10) 1 11).1 ∧
      1 ∉ ((RespawnManager.update (RespawnManager.schedule_respawn [(0, 2)] 1 10) 1 11).2).map Prod.fst) := by
  have h1 := C8_respawn_timing [(0, 2)] 1 10 (21/2) (by decide)
  have h2 := C8_respawn_timing [(0, 2)] 1 10 11 (by decide)
  exact ⟨h1.1 (by norm_num), (h2.2.1 (by norm_num))⟩

/-- One fade-in update keeps opacity in `[0, 255]` and the fade timer
nonnegative, when `dt ≥ 0` and the configured fade duration is positive. -/
theorem update_token_fade_inv (t : Token) (s : Settings) (dt : ℝ)
    (hfd : 0 < s.fade_in_duration_ms) (hdt : 0 ≤ dt)
    (hin : 0 ≤ t.opacity ∧ t.opacity ≤ 255 ∧ 0 ≤ t.fade_timer) :
    0 ≤ (update_token_fade t s dt).opacity ∧
    (update_token_fade t s dt).opacity ≤ 255 ∧
    0 ≤ (update_token_fade t s dt).fade_timer := by
  obtain ⟨h0, h255, hft⟩ := hin
  simp only [update_token_fade]
  split
  · exact ⟨h0, h255, hft⟩
  · split
    · have hfd1000 : 0 < s.fade_in_duration_ms / 1000 := by linarith
      have hft' : 0 ≤ t.fade_timer + dt := by linarith
      have hprog0 : 0 ≤ min 1 ((t.fade_timer + dt) / (s.fade_in_duration_ms / 1000)) :=
        le_min (by norm_num) (by positivity)
      have hprog1 : min 1 ((t.fade_timer + dt) / (s.fade_in_duration_ms / 1000)) ≤ 1 :=
        min_le_left _ _
      have hx0 : (0:ℝ) ≤ 255 * min 1 ((t.fade_timer + dt) / (s.fade_in_duration_ms / 1000)) := by
        positivity
      have hx255 : 255 * min 1 ((t.fade_timer + dt) / (s.fade_in_duration_ms / 1000)) ≤ 255 := by
        nlinarith
      refine ⟨?_, ?_, hft'⟩
      · show 0 ≤ pytrunc (255 * min 1 ((t.fade_timer + dt) / (s.fade_in_duration_ms / 1000)))
        rw [pytrunc, if_pos hx0]
        exact Int.floor_nonneg.mpr hx0
      · show pytrunc (255 * min 1 ((t.fade_timer + dt) / (s.fade_in_duration_ms / 1000))) ≤ 255
        rw [pytrunc, if_pos hx0]
        have : (⌊255 * min 1 ((t.fade_timer + dt) / (s.fade_in_duration_ms / 1000))⌋ : ℝ) ≤ 255 :=
          le_trans (Int.floor_le _) hx255
        exact_mod_cast this
    · exact ⟨h0, h255, hft⟩

/-- **C9**: for every entity and configuration with positive fade duration,
opacity (an integer field) stays within `[0, 255]` across arbitrary
sequences of the operations that touch it — fade-in updates with `dt ≥ 0`,
death/respawn with either spawn behavior, and `Token.reset`. -/
theorem C9_opacity_range (s : Settings) (t : Token) (ops : List LifeOp)
    (hfd : 0 < s.fade_in_duration_ms)
    (hin : 0 ≤ t.opacity ∧ t.opacity ≤ 255 ∧ 0 ≤ t.fade_timer)
    (hdt : ∀ dt : ℝ, LifeOp.fade dt ∈ ops → 0 ≤ dt) :
    0 ≤ (runLifeOps s t ops).opacity ∧ (runLifeOps s t ops).opacity ≤ 255 ∧
    0 ≤ (runLifeOps s t ops).fade_timer := by
  induction ops generalizing t with
  | nil => exact hin
  | cons op rest ih =>
    simp only [runLifeOps, List.foldl_cons]
    have hstep : 0 ≤ (applyLifeOp s t op).opacity ∧ (applyLifeOp s t op).opacity ≤ 255 ∧
        0 ≤ (applyLifeOp s t op).fade_timer := by
      cases op with
      | fade dt =>
        exact update_token_fade_inv t s dt hfd (hdt dt (List.mem_cons_self _ _)) hin
      | respawn home size facing0 tid =>
        simp only [applyLifeOp, respawnNewToken]
        split
        · exact ⟨by norm_num, by norm_num, by norm_num⟩
        · exact ⟨by norm_num, by norm_num, by norm_num⟩
      | reset =>
        exact ⟨by norm_num [applyLifeOp, Token.reset], by norm_num [applyLifeOp, Token.reset],
          by norm_num [applyLifeOp, Token.reset]⟩
    exact ih (applyLifeOp s t op) hstep
      (fun dt hmem => hdt dt (List.mem_cons_of_mem _ hmem))

/-- Witness for C9: a mixed sequence of fade, respawn and reset operations on
the example token keeps opacity in range. -/
theorem C9_opacity_range_witness :
    0 ≤ (runLifeOps exSettings exTokenA
      [LifeOp.fade 0.1, LifeOp.respawn ⟨1, 1⟩ ⟨10, 10⟩ "top" 7, LifeOp.fade 0.2,
        LifeOp.reset]).opacity ∧
    (runLifeOps exSettings exTokenA
      [LifeOp.fade 0.1, LifeOp.respawn ⟨1, 1⟩ ⟨10, 10⟩ "top" 7, LifeOp.fade 0.2,
        LifeOp.reset]).opacity ≤ 255 ∧
    0 ≤ (runLifeOps exSettings exTokenA
      [LifeOp.fade 0.1, LifeOp.respawn ⟨1, 1⟩ ⟨10, 10⟩ "top" 7, LifeOp.fade 0.2,
        LifeOp.reset]).fade_timer :=
  C9_opacity_range exSettings exTokenA _
    (by norm_num [exSettings])
    ⟨by norm_num [exTokenA, Token.init], by norm_num [exTokenA, Token.init],
      by norm_num [exTokenA, Token.init]⟩
    (by intro dt h
        simp only [List.mem_cons, List.not_mem_nil, or_false] at h
        rcases h with h | h | h | h
        · injection h with h0
          rw [h0]
          norm_num
        · exact absurd h (by simp)
        · injection h with h0
          rw [h0]
          norm_num
        · exact absurd h (by simp))
